import Mathlib

/-!
Verification development for the voice-mapper media pipeline.

The repository (JavaScript) is shallowly embedded here:

* JavaScript values that flow through the effect-options objects are
  modelled by `JVal` (string / number / null), with JS truthiness
  mirrored by `jsTruthy`.
* The effect catalog (`src/constants/constants.js`) becomes plain Lean
  lists and an association list of presets.
* `VideoEffectsUtils.validateEffects`, `applyPreset`, the controller's
  preset-merge step, `generateTransitionFilter` and
  `createVideoWithEffects` (`src/utils/videoEffects.utils.js`,
  `src/controllers/video.controller.js`) are embedded as pure functions.
  The ffmpeg filter strings built by the source are represented
  structurally: each string the source pushes into the filter graph is
  modelled by a `FilterOp` value carrying the same constructor and
  numeric/string parameters that the source interpolates into the string.
* The duration estimators (`src/utils/video.utils.js` and the earlier
  revisions kept in the repository) are embedded over a small
  environment record describing the outcomes of the external probes.
* `AudioUtils.concatenateAudioFiles` (`src/utils/audio.utils.js`) is
  embedded as a function from an environment (file sizes, conversion and
  concat outcomes, probe results) to an outcome record that also tracks
  whether the temporary directory was created and removed; the
  `try/finally` of the source is mirrored by performing the removal
  outside the fallible body.
-/

/-- A JavaScript value as it appears in the effect-options objects:
a string, a number, or null.  `undefined` for an absent key is modelled
by `Option JVal = none` at the use sites. -/
inductive JVal where
  | vstr (s : String)
  | vnum (q : ℚ)
  | vnull
  deriving DecidableEq, Repr

/-- JS truthiness for a `JVal`: empty string, 0 and null are falsy. -/
def jsTruthy : JVal → Bool
  | .vstr s => s ≠ ""
  | .vnum q => q ≠ 0
  | .vnull => false

/-- Truthiness of a possibly-absent value (`undefined` is falsy). -/
def jsTruthyOpt : Option JVal → Bool
  | none => false
  | some v => jsTruthy v

/-- The `Array.prototype.includes` call as used on the catalog string arrays:
only a string value can be a member. -/
def jvalIncludedIn (l : List String) : JVal → Bool
  | .vstr s => l.contains s
  | _ => false

/-- VIDEO_TRANSITIONS from src/constants/constants.js. -/
def VIDEO_TRANSITIONS : List String :=
  ["fade", "crossfade", "wipeleft", "wiperight", "wipeup", "wipedown",
   "slideup", "slidedown", "slideleft", "slideright", "circlecrop",
   "rectcrop", "dissolve"]

/-- VIDEO_MOTION_EFFECTS from src/constants/constants.js. -/
def VIDEO_MOTION_EFFECTS : List String :=
  ["kenburns", "zoom_in", "zoom_out", "pan_left", "pan_right", "pan_up",
   "pan_down", "rotate_clockwise", "rotate_counter", "shake", "static"]

/-- VIDEO_COLOR_EFFECTS from src/constants/constants.js. -/
def VIDEO_COLOR_EFFECTS : List String :=
  ["vintage", "sepia", "black_white", "high_contrast", "low_contrast",
   "warm", "cool", "vibrant", "desaturated", "film_grain", "vignette"]

/-- VIDEO_OVERLAY_EFFECTS from src/constants/constants.js. -/
def VIDEO_OVERLAY_EFFECTS : List String :=
  ["particles", "light_leaks", "dust", "scratches", "bokeh", "lens_flare",
   "rain", "snow"]

/-- One named preset from VIDEO_EFFECT_PRESETS: transition, motion and
color are always strings there; overlay is a string or null. -/
structure PresetRec where
  transition : String
  motion : String
  color : String
  overlay : Option String
  description : String
  deriving DecidableEq, Repr

/-- VIDEO_EFFECT_PRESETS from src/constants/constants.js, as an
association list in source order. -/
def VIDEO_EFFECT_PRESETS : List (String × PresetRec) :=
  [("cinematic",
    ⟨"fade", "kenburns", "vintage", some "light_leaks",
     "Cinematic look with warm tones and subtle movement"⟩),
   ("modern",
    ⟨"crossfade", "zoom_in", "high_contrast", none,
     "Clean modern style with sharp contrasts"⟩),
   ("nostalgic",
    ⟨"dissolve", "pan_right", "sepia", some "scratches",
     "Vintage nostalgic feel with sepia tones"⟩),
   ("dynamic",
    ⟨"slideright", "shake", "vibrant", some "particles",
     "High-energy dynamic presentation"⟩),
   ("minimal",
    ⟨"fade", "static", "black_white", none,
     "Clean minimal black and white style"⟩),
   ("nature",
    ⟨"wipeleft", "zoom_out", "cool", some "bokeh",
     "Natural outdoor feeling with cool tones"⟩)]

/-- The `presets[name]` lookup: a string key is looked up in the
registry; a truthy non-string key never matches a preset name. -/
def presetLookup : JVal → Option PresetRec
  | .vstr s => (VIDEO_EFFECT_PRESETS.find? (fun p => p.fst = s)).map Prod.snd
  | _ => none

/-- The caller-supplied effect-options object.  Each named field is
`none` when the key is absent; `extra` lists any further (unknown) keys
present on the object. -/
structure EffectsObj where
  transition : Option JVal := none
  motion : Option JVal := none
  color : Option JVal := none
  overlay : Option JVal := none
  transitionDuration : Option JVal := none
  preset : Option JVal := none
  description : Option JVal := none
  extra : List String := []
  deriving DecidableEq, Repr

/-- The empty effect-options object (the controller's default). -/
def emptyEffects : EffectsObj := {}

/-- One entry of the `errors` array built by `validateEffects`; the
interpolated message strings are represented structurally. -/
inductive EffectError where
  | invalidTransition (v : JVal)
  | invalidMotion (v : JVal)
  | invalidColor (v : JVal)
  | invalidOverlay (v : JVal)
  | invalidPreset (v : JVal)
  deriving DecidableEq, Repr

/-- Result shape of `validateEffects`. -/
structure ValidationResult where
  isValid : Bool
  errors : List EffectError
  deriving DecidableEq, Repr

/-- One `if (effects.X && !available.Xs.includes(effects.X))` block of
`validateEffects`: it contributes one error when the key is present,
truthy and not in the catalog array, and nothing otherwise. -/
def fieldErrors (v : Option JVal) (catalog : List String)
    (mk : JVal → EffectError) : List EffectError :=
  match v with
  | some x =>
      if jsTruthy x ∧ ¬ jvalIncludedIn catalog x then [mk x] else []
  | none => []

/-- The `if (effects.preset)` block of `validateEffects`: one error
when the preset key is present, truthy and not in the registry. -/
def presetErrors (v : Option JVal) : List EffectError :=
  match v with
  | some x =>
      if jsTruthy x ∧ (presetLookup x).isNone then [.invalidPreset x] else []
  | none => []

/-- Embedding of `VideoEffectsUtils.validateEffects` (videoEffects.utils.js 258-295):
each truthy field among transition/motion/color/overlay is checked for
membership in its catalog array, a truthy preset is looked up in the
registry, and `isValid` is the emptiness of the collected error list.
Keys other than these five are never inspected. -/
def validateEffects (effects : EffectsObj) : ValidationResult :=
  let errs : List EffectError :=
    fieldErrors effects.transition VIDEO_TRANSITIONS .invalidTransition ++
    fieldErrors effects.motion VIDEO_MOTION_EFFECTS .invalidMotion ++
    fieldErrors effects.color VIDEO_COLOR_EFFECTS .invalidColor ++
    fieldErrors effects.overlay VIDEO_OVERLAY_EFFECTS .invalidOverlay ++
    presetErrors effects.preset
  { isValid := errs.isEmpty, errors := errs }

/-- The JS value placed on the `overlay` key when a preset is applied:
a string overlay stays a string; a null overlay stays null. -/
def presetOverlayVal : Option String → JVal
  | some s => .vstr s
  | none => .vnull

/-- The object `applyPreset` returns for a registered preset. -/
def presetToEffects (preset : PresetRec) : EffectsObj :=
  { transition := some (.vstr preset.transition)
    motion := some (.vstr preset.motion)
    color := some (.vstr preset.color)
    overlay := some (presetOverlayVal preset.overlay)
    transitionDuration := some (.vnum (4 / 5))
    description := some (.vstr preset.description)
    preset := none
    extra := [] }

/-- Embedding of `VideoEffectsUtils.applyPreset` (videoEffects.utils.js 298-314):
looks the name up in the registry, throws when absent, and otherwise
returns an object with the preset's four effect fields, a
`transitionDuration` of 0.8, and the preset's `description`. -/
def applyPreset (presetName : JVal) : Except String EffectsObj :=
  match presetLookup presetName with
  | none => .error "preset-not-found"
  | some preset => .ok (presetToEffects preset)

/-- Object spread `{...base, ...caller}`: every key present on the
caller overrides the base; keys absent from the caller keep the base's
value; unknown keys of both objects are kept. -/
def spreadMerge (base caller : EffectsObj) : EffectsObj :=
  { transition := caller.transition.orElse fun _ => base.transition
    motion := caller.motion.orElse fun _ => base.motion
    color := caller.color.orElse fun _ => base.color
    overlay := caller.overlay.orElse fun _ => base.overlay
    transitionDuration :=
      caller.transitionDuration.orElse fun _ => base.transitionDuration
    preset := caller.preset.orElse fun _ => base.preset
    description := caller.description.orElse fun _ => base.description
    extra := base.extra ++ caller.extra }

/-- The controller's preset-resolution step
(video.controller.js 375-382): when `effects.preset` is truthy, the
preset is applied, the caller's explicit fields are spread over it, and
the `preset` key is deleted; otherwise the caller's object is used
unchanged. -/
def resolveEffects (effects : EffectsObj) : Except String EffectsObj :=
  if jsTruthyOpt effects.preset then
    match applyPreset (effects.preset.getD .vnull) with
    | .ok pre => .ok { spreadMerge pre effects with preset := none }
    | .error e => .error e
  else
    .ok effects

/-- One xfade transition operation, the structural content of the
filter string `[vI][vJ]xfade=transition=T:duration=D:offset=0[transJ]`
built by `generateTransitionFilter`. -/
structure TransOp where
  fromIdx : ℕ
  toIdx : ℕ
  xfade : String
  duration : ℚ
  outIdx : ℕ
  deriving DecidableEq, Repr

/-- The xfade engine name `generateTransitionFilter`'s effectMap binds
to each catalog transition key; `none` for keys without an entry. -/
def xfadeNameOf : String → Option String
  | "fade" => some "fade"
  | "crossfade" => some "fadeblack"
  | "wipeleft" => some "wipeleft"
  | "wiperight" => some "wiperight"
  | "wipeup" => some "wipeup"
  | "wipedown" => some "wipedown"
  | "slideup" => some "slideup"
  | "slidedown" => some "slidedown"
  | "slideleft" => some "slideleft"
  | "slideright" => some "slideright"
  | "circlecrop" => some "circlecrop"
  | "dissolve" => some "dissolve"
  | _ => none

/-- Embedding of `VideoEffectsUtils.generateTransitionFilter`
(videoEffects.utils.js 26-59): the effectMap lookup with the fade entry
as the fallback for unknown keys (`effectMap[transitionType] ||
effectMap.fade`). -/
def generateTransitionFilter (fromIndex toIndex : ℕ) (transitionType : String)
    (duration : ℚ := 1) : TransOp :=
  { fromIdx := fromIndex
    toIdx := toIndex
    xfade := (xfadeNameOf transitionType).getD "fade"
    duration := duration
    outIdx := toIndex }

/-- Numeric value of a list of decimal digit characters. -/
def digitsToNat (l : List Char) : ℕ :=
  l.foldl (fun a c => a * 10 + (c.toNat - 48)) 0

/-- Decimal exponent digits of a JS float literal; an empty digit run
contributes exponent 0 (parseFloat ignores a bare exponent marker). -/
def jsExpDigits (cs : List Char) : ℤ :=
  (digitsToNat (cs.takeWhile Char.isDigit) : ℤ)

/-- Optionally signed exponent of a JS float literal. -/
def jsExpSigned : List Char → ℤ
  | '+' :: rest => jsExpDigits rest
  | '-' :: rest => -(jsExpDigits rest)
  | cs => jsExpDigits cs

/-- Exponent part of a JS float literal, 0 when absent. -/
def jsExpPart : List Char → ℤ
  | 'e' :: rest => jsExpSigned rest
  | 'E' :: rest => jsExpSigned rest
  | _ => 0

/-- The digit-level content of a JS float literal: sign, integer
digits, fraction digits with their count, and the decimal exponent. -/
structure FloatParts where
  neg : Bool
  intDigits : ℕ
  fracDigits : ℕ
  fracLen : ℕ
  exp : ℤ
  deriving DecidableEq, Repr

/-- Magnitude of a JS float literal: digits, an optional fraction and
an optional exponent; `none` when no digit is found (NaN). -/
def jsMagnitudeParts (cs : List Char) : Option FloatParts :=
  let ip := cs.takeWhile Char.isDigit
  let r1 := cs.drop ip.length
  match r1 with
  | '.' :: r2 =>
      let fp := r2.takeWhile Char.isDigit
      let r3 := r2.drop fp.length
      if ip.isEmpty && fp.isEmpty then none
      else some ⟨false, digitsToNat ip, digitsToNat fp, fp.length, jsExpPart r3⟩
  | _ =>
      if ip.isEmpty then none
      else some ⟨false, digitsToNat ip, 0, 0, jsExpPart r1⟩

/-- Optionally signed JS float literal, at the digit level. -/
def jsFloatParts : List Char → Option FloatParts
  | '+' :: rest => jsMagnitudeParts rest
  | '-' :: rest => (jsMagnitudeParts rest).map fun m => { m with neg := true }
  | cs => jsMagnitudeParts cs

/-- Numeric value of the digit-level content. -/
def partsToRat (p : FloatParts) : ℚ :=
  (if p.neg then -1 else 1)
    * ((p.intDigits : ℚ) + (p.fracDigits : ℚ) / 10 ^ p.fracLen)
    * (10 : ℚ) ^ p.exp

/-- Digit-level stage of `parseFloat`: skip leading whitespace, then
read the longest leading float literal; `none` models NaN. -/
def jsParseFloatStage (s : String) : Option FloatParts :=
  jsFloatParts (s.data.dropWhile fun c =>
    c = ' ' ∨ c = '\t' ∨ c = '\n' ∨ c = '\r')

/-- JS `parseFloat` on a string: the numeric value of the digit-level
stage; `none` models NaN. -/
def jsParseFloat (s : String) : Option ℚ :=
  (jsParseFloatStage s).map partsToRat

/-- JS `parseFloat(x) || 0`: NaN collapses to 0 (and 0 stays 0). -/
def jsParseFloatOrZero (s : String) : ℚ :=
  (jsParseFloat s).getD 0

/-- Helper for `String.prototype.split(":")`: splits the character list
at every colon, keeping empty pieces, as JS split does. -/
def splitColonAux : List Char → List Char → List String
  | [], acc => [String.mk acc.reverse]
  | c :: rest, acc =>
      if c = ':' then String.mk acc.reverse :: splitColonAux rest []
      else splitColonAux rest (c :: acc)

/-- The `timemark.split(":")` call. -/
def splitColon (s : String) : List String :=
  splitColonAux s.data []

/-- Embedding of `VideoUtils.parseTimemark` (revision files, lines 254-279 and
205-230): 0 for a non-string or empty input, 0 unless the split yields
exactly three parts, else `h*3600 + m*60 + s` with each part read by
`parseFloat(part) || 0`.  The body after the guards never throws, so
the source's try/catch has no error path to model. -/
def parseTimemark (v : JVal) : ℚ :=
  match v with
  | .vstr s =>
      if s = "" then 0
      else
        let parts := splitColon s
        if parts.length ≠ 3 then 0
        else
          let hours := jsParseFloatOrZero (parts.getD 0 "")
          let minutes := jsParseFloatOrZero (parts.getD 1 "")
          let seconds := jsParseFloatOrZero (parts.getD 2 "")
          hours * 3600 + minutes * 60 + seconds
  | _ => 0

/-- JS `Math.round`: floor of the argument plus one half. -/
def jsRound (q : ℚ) : ℤ :=
  ⌊q + 1 / 2⌋

/-- The progress handler of `VideoController.createVideoWithImages`
(video.controller.js 210-225): percentage starts at 0; when the
timemark is truthy and the total duration positive it becomes
`Math.round(parseTimemark(timemark) / totalDuration * 100)` capped by
`Math.min(percentage, 100)`. -/
def reportedProgress (timemark : JVal) (totalDuration : ℚ) : ℤ :=
  if jsTruthy timemark ∧ 0 < totalDuration then
    min (jsRound (parseTimemark timemark / totalDuration * 100)) 100
  else 0

/-- The percentage sequence the caller observes for a run of engine
progress events. -/
def observedProgress (timemarks : List JVal) (totalDuration : ℚ) : List ℤ :=
  timemarks.map (reportedProgress · totalDuration)

/-- Outcomes of the external media probes for one audio path, the
environment the duration estimators run in.  `probeErr` is ffprobe
failing outright; `probeDuration` is `metadata.format.duration` (absent
or 0 is falsy in the source's guard); `stderrDuration` is the duration
recovered from the diagnostic text of the discarded encode pass in the
part_007 revision; `fileSize` is the `fs.statSync` result (`none` when
stat throws). -/
structure DurationEnv where
  probeErr : Bool
  probeDuration : Option ℚ
  stderrDuration : Option ℚ
  fileSize : Option ℕ
  deriving DecidableEq, Repr

/-- Embedding of `VideoUtils.estimateAudioDuration` (src/utils/video.utils.js
29-43): ffprobe's duration when the probe succeeds and the duration is
truthy, the caller's fallback otherwise.  No other source is consulted. -/
def estimateAudioDuration (env : DurationEnv) (fallbackDuration : ℚ) : ℚ :=
  if env.probeErr then fallbackDuration
  else
    match env.probeDuration with
    | none => fallbackDuration
    | some d => if d = 0 then fallbackDuration else d

/-- The part_007 revision of `estimateAudioDuration` (lines 33-99): a
discarded encode pass is started and the first `Duration:` line of its
diagnostic text is used; the fallback is returned when no such line
appears. -/
def estimateAudioDurationFromDiagnostics (env : DurationEnv)
    (fallbackDuration : ℚ) : ℚ :=
  match env.stderrDuration with
  | some d => d
  | none => fallbackDuration

/-- Embedding of `getAudioDuration` of the part_003/part_002 controller revisions
(lines 196-221 and 502-527): `fileSizeBytes * 8 / 128000` clamped by
`Math.max(5, Math.min(60, estimated))`, and 10 when `statSync` throws. -/
def sizeBasedAudioDuration (statSize : Option ℕ) : ℚ :=
  match statSize with
  | some fileSizeBytes =>
      let estimatedDuration : ℚ := (fileSizeBytes : ℚ) * 8 / 128000
      max 5 (min 60 estimatedDuration)
  | none => 10

/-- The raw (unclamped) size-based estimate. -/
def sizeBasedRawEstimate (fileSizeBytes : ℕ) : ℚ :=
  (fileSizeBytes : ℚ) * 8 / 128000

/-- Modelled from the spec: the layered `estimateTotal` strategy of
section 4.3 — metadata probe first, then diagnostic-text recovery, then
the clamped size estimate, then the caller's fallback; no single
function of the repository chains these tiers, so this definition
follows the spec's words for comparison with the code. -/
def specLayeredEstimate (env : DurationEnv) (fallbackDuration : ℚ) : ℚ :=
  if ¬ env.probeErr ∧ env.probeDuration.isSome then
    env.probeDuration.getD fallbackDuration
  else
    match env.stderrDuration with
    | some d => d
    | none =>
        match env.fileSize with
        | some n => max 5 (min 60 (sizeBasedRawEstimate n))
        | none => fallbackDuration

/-- Direction of an ffmpeg `fade` filter appended to a segment chain. -/
inductive FadeDir where
  | fadeIn
  | fadeOut
  deriving DecidableEq, Repr

/-- One `fade=t=...:st=...:d=...` element of a segment chain. -/
structure FadeSpec where
  dir : FadeDir
  start : ℚ
  dur : ℚ
  deriving DecidableEq, Repr

/-- The inline `zoompan` of `createVideoWithEffects`: the expression
`z=1+(ramp*on/frames)` with the segment's frame count. -/
structure InlineZoom where
  base : ℚ
  ramp : ℚ
  frames : ℤ
  deriving DecidableEq, Repr

/-- One per-image chain of `createVideoWithEffects`: cover-scale to
`scaleW x scaleH`, centre-crop to `cropW x cropH`, an optional zoompan,
and the fade elements, labelled `[v inputIndex]`. -/
structure ScaleCropChain where
  inputIndex : ℕ
  scaleW : ℚ
  scaleH : ℚ
  cropW : ℕ
  cropH : ℕ
  zoom : Option InlineZoom
  fades : List FadeSpec
  deriving DecidableEq, Repr

/-- One operation of a compiled filter graph.  The constructors mirror
the kinds of filter strings the source can emit: the per-image
scale-crop chains and the copy/concat terminators of
`createVideoWithEffects`, and the transition / color / overlay strings
of `generateTransitionFilter`, `generateColorFilter` and
`generateOverlayFilter`. -/
inductive FilterOp where
  | scaleCrop (c : ScaleCropChain)
  | copyStream (inIdx : ℕ)
  | concatStreams (inputs : List ℕ) (n : ℕ)
  | transitionBlend (t : TransOp)
  | colorGrade (effect : String)
  | overlayComposite (effect : String)
  deriving DecidableEq, Repr

/-- The per-segment duration `audioDuration / imagePaths.length`
computed by `createVideoWithEffects`. -/
def imageDurationOf (audioDuration : ℚ) (imagePaths : List String) : ℚ :=
  audioDuration / (imagePaths.length : ℚ)

/-- Embedding of `VideoEffectsUtils.createVideoWithEffects`
(videoEffects.utils.js 168-255), as the list of filter-graph operations
it pushes into `videoFilters`.  Every image gets a 1.4x cover-scale,
a centre-crop to the configured 1920x1080 frame, a `zoompan` whose zoom
expression is `1+(0.4*on/totalFrames)` with
`totalFrames = Math.round(imageDuration * fps)`, and — when there is
more than one image — a 0.5s fade out on the first image, a 0.5s fade
in on the last, and both on middle images; a single image is terminated
by a copy, several by one concat.  The `effects` argument is accepted
and never read, exactly as in the source. -/
def createVideoWithEffects (imagePaths : List String)
    (audioDuration : ℚ) (effects : EffectsObj) : List FilterOp :=
  let width : ℕ := 1920
  let height : ℕ := 1080
  let fps : ℕ := 30
  let n := imagePaths.length
  let imageDuration := imageDurationOf audioDuration imagePaths
  let chains := (List.range n).map (fun index =>
    let fadeOutStart := imageDuration - (if index = n - 1 then 0 else 1 / 2)
    let totalFrames := jsRound (imageDuration * (fps : ℚ))
    let fades : List FadeSpec :=
      if n > 1 then
        if index = 0 then
          [⟨.fadeOut, fadeOutStart, 1 / 2⟩]
        else if index = n - 1 then
          [⟨.fadeIn, 0, 1 / 2⟩]
        else
          [⟨.fadeIn, 0, 1 / 2⟩, ⟨.fadeOut, fadeOutStart, 1 / 2⟩]
      else []
    FilterOp.scaleCrop
      { inputIndex := index
        scaleW := (width : ℚ) * (7 / 5)
        scaleH := (height : ℚ) * (7 / 5)
        cropW := width
        cropH := height
        zoom := some { base := 1, ramp := 2 / 5, frames := totalFrames }
        fades := fades })
  let tail : List FilterOp :=
    if n = 1 then [.copyStream 0]
    else [.concatStreams (List.range n) n]
  chains ++ tail

/-- A scale-crop chain with static motion in the sense of claim C1:
no zoompan and no fade elements (the shape `generateMotionFilter`'s
`static` entry would produce). -/
def isStaticScaleCrop : FilterOp → Bool
  | .scaleCrop c => c.zoom.isNone && c.fades.isEmpty
  | _ => false

/-- Any per-image scale-crop chain. -/
def isScaleCrop : FilterOp → Bool
  | .scaleCrop _ => true
  | _ => false

/-- A concat operation. -/
def isConcat : FilterOp → Bool
  | .concatStreams _ _ => true
  | _ => false

/-- A transition-blend operation. -/
def isTransitionBlend : FilterOp → Bool
  | .transitionBlend _ => true
  | _ => false

/-- A color-grade operation. -/
def isColorGrade : FilterOp → Bool
  | .colorGrade _ => true
  | _ => false

/-- An overlay-composite operation. -/
def isOverlayComposite : FilterOp → Bool
  | .overlayComposite _ => true
  | _ => false

/-- Errors `concatenateAudioFiles` can throw, structurally. -/
inductive ConcatError where
  | noAudioFiles
  | fileNotFound (p : String)
  | invalidOrEmpty (p : String)
  | conversionFailed (i : ℕ)
  | concatFailed
  deriving DecidableEq, Repr

/-- The success record of `concatenateAudioFiles`. -/
structure ConcatSuccess where
  outputPath : String
  totalDuration : ℚ
  sourceFiles : ℕ
  deriving DecidableEq, Repr

/-- Environment for a `concatenateAudioFiles` run: the size of each
path (`none` when the file does not exist / stat throws), the outcome
of the i-th sequential ffmpeg conversion, the outcome of the concat
pass, and the duration probe of the produced output (`none` when
ffprobe rejects, which the source maps to 60). -/
structure ConcatEnv where
  fileSize : String → Option ℕ
  convertOk : ℕ → Bool
  concatOk : Bool
  probeDuration : Option ℚ

/-- Outcome of a `concatenateAudioFiles` run, together with whether the
temporary work directory was created and whether it was removed. -/
structure ConcatRun where
  outcome : Except ConcatError ConcatSuccess
  tmpCreated : Bool
  tmpRemoved : Bool

/-- The sequential conversion loop of the multi-input branch: for each
input in order, stat it (missing or zero-length throws), then convert
it (a failed conversion throws); `i` is the running index. -/
def convertLoop (env : ConcatEnv) : List String → ℕ → Except ConcatError Unit
  | [], _ => .ok ()
  | p :: rest, i =>
      match env.fileSize p with
      | none => .error (.invalidOrEmpty p)
      | some 0 => .error (.invalidOrEmpty p)
      | some _ =>
          if env.convertOk i then convertLoop env rest (i + 1)
          else .error (.conversionFailed i)

/-- The fallible body of the multi-input branch: convert every input
sequentially, write the manifest, run the concat pass, then measure the
output's duration (60 when the probe rejects). -/
def multiConcatBody (paths : List String) (outputPath : String)
    (env : ConcatEnv) : Except ConcatError ConcatSuccess := do
  convertLoop env paths 0
  if env.concatOk then
    .ok { outputPath := outputPath
          totalDuration := env.probeDuration.getD 60
          sourceFiles := paths.length }
  else .error .concatFailed

/-- Embedding of `AudioUtils.concatenateAudioFiles` (audio.utils.js 14-140).
An empty list throws; a missing input throws during validation; a
single input is copied verbatim and its duration probed (60 on probe
failure), with no temporary directory involved; otherwise the
temporary directory is created and the fallible body runs inside the
source's try/finally, whose finally removes the directory on success
and on failure alike — mirrored here by setting `tmpRemoved` outside
the body. -/
def concatenateAudioFiles (audioPaths : List String) (outputPath : String)
    (env : ConcatEnv) : ConcatRun :=
  if audioPaths.isEmpty then
    { outcome := .error .noAudioFiles, tmpCreated := false, tmpRemoved := false }
  else
    match audioPaths.find? (fun p => (env.fileSize p).isNone) with
    | some p =>
        { outcome := .error (.fileNotFound p)
          tmpCreated := false, tmpRemoved := false }
    | none =>
        if audioPaths.length = 1 then
          { outcome := .ok { outputPath := outputPath
                             totalDuration := env.probeDuration.getD 60
                             sourceFiles := 1 }
            tmpCreated := false, tmpRemoved := false }
        else
          { outcome := multiConcatBody audioPaths outputPath env
            tmpCreated := true, tmpRemoved := true }

/-- A scale-crop chain that carries both the inline zoompan ramp and at
least one boundary fade (what `createVideoWithEffects` actually emits
for a multi-image job). -/
def hasZoomAndFades : FilterOp → Bool
  | .scaleCrop c => c.zoom.isSome && !c.fades.isEmpty
  | _ => false

/-- Whether a `concatenateAudioFiles` outcome is a success. -/
def concatOutcomeOk : Except ConcatError ConcatSuccess → Bool
  | .ok _ => true
  | .error _ => false

/-- The scenario-B caller input: a preset name and nothing else. -/
def cinematicCaller : EffectsObj :=
  { preset := some (.vstr "cinematic") }

/-- The object `resolveEffects` actually produces for the scenario-B
input: the cinematic preset's fields, the 0.8 default duration, and the
preset's `description` string. -/
def cinematicResolved : EffectsObj :=
  { transition := some (.vstr "fade")
    motion := some (.vstr "kenburns")
    color := some (.vstr "vintage")
    overlay := some (.vstr "light_leaks")
    transitionDuration := some (.vnum (4 / 5))
    description := some (.vstr "Cinematic look with warm tones and subtle movement")
    preset := none
    extra := [] }

/-- The object claim C2 says `resolveEffects` produces for the
scenario-B input: exactly the five effect fields and no others. -/
def claimC2Exact : EffectsObj :=
  { transition := some (.vstr "fade")
    motion := some (.vstr "kenburns")
    color := some (.vstr "vintage")
    overlay := some (.vstr "light_leaks")
    transitionDuration := some (.vnum (4 / 5))
    description := none
    preset := none
    extra := [] }

/-- An environment with a single existing but zero-length audio file
(conversion and concat would succeed; the output probe rejects). -/
def zeroLengthSoloEnv : ConcatEnv :=
  { fileSize := fun p => if p = "solo.mp3" then some 0 else none
    convertOk := fun _ => true
    concatOk := true
    probeDuration := none }

/-- An environment with two valid inputs whose first conversion step
fails, exercising the failure path of the multi-input branch. -/
def failingConversionEnv : ConcatEnv :=
  { fileSize := fun p => if p = "a.mp3" ∨ p = "b.mp3" then some 5 else none
    convertOk := fun i => i ≠ 0
    concatOk := true
    probeDuration := some 12 }

/-- Spec-side acceptance of one field: every present, truthy value is a
member of the field's catalog array. -/
def fieldAccepted (v : Option JVal) (catalog : List String) : Prop :=
  ∀ x, v = some x → jsTruthy x = true → jvalIncludedIn catalog x = true

/-- Spec-side acceptance of the preset field: every present, truthy
value names a registered preset. -/
def presetAccepted (v : Option JVal) : Prop :=
  ∀ x, v = some x → jsTruthy x = true → (presetLookup x).isSome = true

/-- A scenario-B-style caller that also explicitly overrides the color
field, to exercise the caller-field-preservation property. -/
def overrideCaller : EffectsObj :=
  { preset := some (.vstr "cinematic"), color := some (.vstr "sepia") }

/-- The object `resolveEffects` produces for `overrideCaller`: the
cinematic preset with the caller's explicit sepia color kept. -/
def overrideResolved : EffectsObj :=
  { transition := some (.vstr "fade")
    motion := some (.vstr "kenburns")
    color := some (.vstr "sepia")
    overlay := some (.vstr "light_leaks")
    transitionDuration := some (.vnum (4 / 5))
    description := some (.vstr "Cinematic look with warm tones and subtle movement")
    preset := none
    extra := [] }

theorem jsParseFloatOrZero_eval (s : String) (p : FloatParts)
    (h : jsParseFloatStage s = some p) :
    jsParseFloatOrZero s = partsToRat p := by
  simp [jsParseFloatOrZero, jsParseFloat, h]

theorem parseTimemark_eval3 (s hh mm ss : String) (hne : s ≠ "")
    (hsplit : splitColon s = [hh, mm, ss]) :
    parseTimemark (.vstr s) =
      jsParseFloatOrZero hh * 3600 + jsParseFloatOrZero mm * 60 +
        jsParseFloatOrZero ss := by
  simp [parseTimemark, hne, hsplit]

theorem parseTimemark_ts20 : parseTimemark (.vstr "00:00:20") = 20 := by
  rw [parseTimemark_eval3 _ "00" "00" "20" (by decide) (by decide),
    jsParseFloatOrZero_eval "00" ⟨false, 0, 0, 0, 0⟩ (by decide),
    jsParseFloatOrZero_eval "20" ⟨false, 20, 0, 0, 0⟩ (by decide)]
  norm_num [partsToRat]

theorem parseTimemark_ts10 : parseTimemark (.vstr "00:00:10") = 10 := by
  rw [parseTimemark_eval3 _ "00" "00" "10" (by decide) (by decide),
    jsParseFloatOrZero_eval "00" ⟨false, 0, 0, 0, 0⟩ (by decide),
    jsParseFloatOrZero_eval "10" ⟨false, 10, 0, 0, 0⟩ (by decide)]
  norm_num [partsToRat]

/-- Claim C10: "rectcrop" is a catalog transition and passes
`validateEffects`, yet `generateTransitionFilter` has no entry for it
and compiles it to the fade blend operation. -/
theorem claim_C10 :
    VIDEO_TRANSITIONS.contains "rectcrop" = true ∧
    (validateEffects { transition := some (.vstr "rectcrop") }).isValid = true ∧
    (∀ (i j : ℕ) (d : ℚ),
      generateTransitionFilter i j "rectcrop" d =
        generateTransitionFilter i j "fade" d) ∧
    (generateTransitionFilter 0 1 "rectcrop" 1).xfade = "fade" :=
  ⟨by decide, by decide, fun _ _ _ => rfl, rfl⟩

/-- Claim C6: the timemark parser is total and returns 90.45 on
"00:01:30.45", 0 on "garbage", 0 on the empty string, and 0 on every
non-string value and every string that does not split into exactly
three colon-separated parts. -/
theorem claim_C6 :
    parseTimemark (.vstr "00:01:30.45") = 9045 / 100 ∧
    parseTimemark (.vstr "garbage") = 0 ∧
    parseTimemark (.vstr "") = 0 ∧
    (∀ v : JVal,
      (∀ s, v = .vstr s → (splitColon s).length ≠ 3) → parseTimemark v = 0) := by
  refine ⟨?_, by decide, by decide, ?_⟩
  · rw [parseTimemark_eval3 _ "00" "01" "30.45" (by decide) (by decide),
      jsParseFloatOrZero_eval "00" ⟨false, 0, 0, 0, 0⟩ (by decide),
      jsParseFloatOrZero_eval "01" ⟨false, 1, 0, 0, 0⟩ (by decide),
      jsParseFloatOrZero_eval "30.45" ⟨false, 30, 45, 2, 0⟩ (by decide)]
    norm_num [partsToRat]
  · intro v hv
    cases v with
    | vstr s =>
        by_cases hs : s = ""
        · simp [parseTimemark, hs]
        · simp [parseTimemark, hs, hv s rfl]
    | vnum q => rfl
    | vnull => rfl

theorem claim_C6_witness : parseTimemark (.vnum 5) = 0 :=
  claim_C6.2.2.2 (.vnum 5) (fun _ h => by cases h)

/-- Claim C5: the size-based tier computes size*8/128000 clamped to
the [5, 60] window (agreeing with the raw value inside the window), the
raw estimate at 1,280,000 bytes is 80 and the returned value 60; the
same value is what the spec's layered strategy yields when the probe
and the diagnostic recovery both fail. -/
theorem claim_C5 :
    sizeBasedRawEstimate 1280000 = 80 ∧
    sizeBasedAudioDuration (some 1280000) = 60 ∧
    (∀ n : ℕ,
      5 ≤ sizeBasedAudioDuration (some n) ∧
      sizeBasedAudioDuration (some n) ≤ 60 ∧
      (5 ≤ sizeBasedRawEstimate n → sizeBasedRawEstimate n ≤ 60 →
        sizeBasedAudioDuration (some n) = sizeBasedRawEstimate n)) ∧
    (∀ fb : ℚ,
      specLayeredEstimate ⟨true, none, none, some 1280000⟩ fb = 60) := by
  refine ⟨by norm_num [sizeBasedRawEstimate], by norm_num [sizeBasedAudioDuration], ?_, ?_⟩
  · intro n
    refine ⟨le_max_left _ _, ?_, ?_⟩
    · simp [sizeBasedAudioDuration, sizeBasedRawEstimate]
      norm_num
    · intro h5 h60
      simp [sizeBasedAudioDuration, sizeBasedRawEstimate] at *
      rw [min_eq_right h60, max_eq_right h5]
  · intro fb
    norm_num [specLayeredEstimate, sizeBasedRawEstimate]

theorem claim_C5_witness :
    sizeBasedAudioDuration (some 480000) = sizeBasedRawEstimate 480000 :=
  ((claim_C5.2.2.1 480000).2.2 (by norm_num [sizeBasedRawEstimate])
    (by norm_num [sizeBasedRawEstimate]))

/-- Claim C4 counterexample: with the metadata probe failing, the file
size known (1,280,000 bytes, a successful third tier worth 60s), and
fallback 42, `estimateAudioDuration` returns the fallback 42 instead of
the layered strategy's 60 — the later tiers are never attempted. -/
theorem claim_C4_counterexample :
    estimateAudioDuration ⟨true, none, none, some 1280000⟩ 42 = 42 ∧
    specLayeredEstimate ⟨true, none, none, some 1280000⟩ 42 = 60 ∧
    (42 : ℚ) ≠ 60 := by
  refine ⟨rfl, ?_, by norm_num⟩
  norm_num [specLayeredEstimate, sizeBasedRawEstimate]

/-- Claim C4 (amended): `estimateAudioDuration` consults only the
metadata probe — a failed or empty probe yields the caller's fallback
directly, a successful probe yields its duration, and the result never
depends on the diagnostic-text or file-size tiers. -/
theorem claim_C4 :
    ∀ (env : DurationEnv) (fb : ℚ),
      ((env.probeErr = true ∨ env.probeDuration = none ∨
          env.probeDuration = some 0) →
        estimateAudioDuration env fb = fb) ∧
      (∀ d, env.probeErr = false → env.probeDuration = some d → d ≠ 0 →
        estimateAudioDuration env fb = d) ∧
      (∀ env' : DurationEnv, env.probeErr = env'.probeErr →
        env.probeDuration = env'.probeDuration →
        estimateAudioDuration env fb = estimateAudioDuration env' fb) := by
  intro env fb
  refine ⟨?_, ?_, ?_⟩
  · rintro (h | h | h) <;> simp [estimateAudioDuration, h]
  · intro d herr hdur hne
    simp [estimateAudioDuration, herr, hdur, hne]
  · intro env' h1 h2
    simp [estimateAudioDuration, h1, h2]

theorem claim_C4_witness :
    estimateAudioDuration ⟨true, none, some 5, some 999⟩ 7 = 7 :=
  (claim_C4 ⟨true, none, some 5, some 999⟩ 7).1 (Or.inl rfl)

/-- Claim C1 counterexample: for 3 images, a 30-second audio track and
no effects, the compiled graph's three scale-crop chains all carry a
zoompan ramp and boundary fades — none is static, so the graph does not
contain 3 scale-crop operations with static motion. -/
theorem claim_C1_counterexample :
    (createVideoWithEffects ["img1.jpg", "img2.jpg", "img3.jpg"] 30
        emptyEffects).countP isScaleCrop = 3 ∧
    ¬ (createVideoWithEffects ["img1.jpg", "img2.jpg", "img3.jpg"] 30
        emptyEffects).countP isStaticScaleCrop = 3 := by
  constructor <;> decide

/-- Claim C1 (amended): for every job with 3 images and a 30-second
audio track and no effects requested, each segment duration is 10
seconds and the compiled graph contains exactly 3 scale-crop chains —
each carrying the zoom-in zoompan ramp and boundary fades rather than
static motion — plus one concat operation, and no transition-blend,
color or overlay operations. -/
theorem claim_C1 :
    ∀ p1 p2 p3 : String,
      imageDurationOf 30 [p1, p2, p3] = 10 ∧
      (createVideoWithEffects [p1, p2, p3] 30 emptyEffects).countP
          isScaleCrop = 3 ∧
      (createVideoWithEffects [p1, p2, p3] 30 emptyEffects).countP
          hasZoomAndFades = 3 ∧
      (createVideoWithEffects [p1, p2, p3] 30 emptyEffects).countP
          isStaticScaleCrop = 0 ∧
      (createVideoWithEffects [p1, p2, p3] 30 emptyEffects).countP
          isConcat = 1 ∧
      (createVideoWithEffects [p1, p2, p3] 30 emptyEffects).countP
          isTransitionBlend = 0 ∧
      (createVideoWithEffects [p1, p2, p3] 30 emptyEffects).countP
          isColorGrade = 0 ∧
      (createVideoWithEffects [p1, p2, p3] 30 emptyEffects).countP
          isOverlayComposite = 0 := by
  intro p1 p2 p3
  have hg : createVideoWithEffects [p1, p2, p3] 30 emptyEffects =
      createVideoWithEffects ["a", "b", "c"] 30 emptyEffects := rfl
  refine ⟨by norm_num [imageDurationOf], ?_, ?_, ?_, ?_, ?_, ?_, ?_⟩ <;>
    rw [hg] <;> decide

theorem reportedProgress_ts20 : reportedProgress (.vstr "00:00:20") 30 = 67 := by
  rw [reportedProgress, if_pos ⟨by decide, by norm_num⟩, parseTimemark_ts20]
  norm_num [jsRound]

theorem reportedProgress_ts10 : reportedProgress (.vstr "00:00:10") 30 = 33 := by
  rw [reportedProgress, if_pos ⟨by decide, by norm_num⟩, parseTimemark_ts10]
  norm_num [jsRound]

/-- Claim C7 counterexample: when the engine's self-reported timemark
regresses from 00:00:20 to 00:00:10 during a 30-second encode, the
caller observes 67 followed by 33 — the observed sequence is not
monotonic non-decreasing. -/
theorem claim_C7_counterexample :
    observedProgress [.vstr "00:00:20", .vstr "00:00:10"] 30 = [67, 33] ∧
    ¬ List.Chain' (· ≤ ·)
        (observedProgress [.vstr "00:00:20", .vstr "00:00:10"] 30) := by
  have h : observedProgress [.vstr "00:00:20", .vstr "00:00:10"] 30 = [67, 33] := by
    simp [observedProgress, reportedProgress_ts20, reportedProgress_ts10]
  refine ⟨h, ?_⟩
  rw [h]
  intro hc
  exact absurd (List.chain'_cons.mp hc).1 (by norm_num)

/-- Claim C7 (amended): each progress event is reported independently
as `min(round(parsedTimemark / totalDuration * 100), 100)`: the value
never exceeds 100, is non-negative whenever the parsed timemark is, and
is monotone in the parsed timemark — but nothing enforces monotonicity
across events, so a regressing engine report produces a regressing
observed value. -/
theorem claim_C7 :
    ∀ (tm tm' : JVal) (total : ℚ), 0 < total →
      reportedProgress tm total ≤ 100 ∧
      (0 ≤ parseTimemark tm → 0 ≤ reportedProgress tm total) ∧
      (jsTruthy tm = true → jsTruthy tm' = true →
        parseTimemark tm ≤ parseTimemark tm' →
        reportedProgress tm total ≤ reportedProgress tm' total) := by
  intro tm tm' total htotal
  refine ⟨?_, ?_, ?_⟩
  · rw [reportedProgress]
    split
    · exact min_le_right _ _
    · norm_num
  · intro hnn
    rw [reportedProgress]
    split
    · refine le_min ?_ (by norm_num)
      rw [jsRound]
      refine Int.floor_nonneg.mpr ?_
      have h1 : 0 ≤ parseTimemark tm / total * 100 := by positivity
      linarith
    · exact le_refl 0
  · intro ht ht' hle
    rw [reportedProgress, reportedProgress, if_pos ⟨ht, htotal⟩, if_pos ⟨ht', htotal⟩]
    refine min_le_min ?_ le_rfl
    rw [jsRound, jsRound]
    refine Int.floor_le_floor ?_
    have h1 : parseTimemark tm / total ≤ parseTimemark tm' / total :=
      (div_le_div_iff_of_pos_right htotal).mpr hle
    have h2 := mul_le_mul_of_nonneg_right h1 (by norm_num : (0:ℚ) ≤ 100)
    linarith

theorem claim_C7_witness :
    reportedProgress (.vstr "00:00:10") 30 ≤
      reportedProgress (.vstr "00:00:20") 30 :=
  (claim_C7 (.vstr "00:00:10") (.vstr "00:00:20") 30 (by norm_num)).2.2
    (by decide) (by decide)
    (by rw [parseTimemark_ts10, parseTimemark_ts20]; norm_num)


theorem fieldErrors_eq_nil_iff (v : Option JVal) (catalog : List String)
    (mk : JVal → EffectError) :
    fieldErrors v catalog mk = [] ↔ fieldAccepted v catalog := by
  cases v with
  | none => simp [fieldErrors, fieldAccepted]
  | some x =>
      simp only [fieldErrors, fieldAccepted, Option.some.injEq]
      split_ifs with h
      · simp only [List.cons_ne_nil, false_iff]
        intro hall
        exact absurd (hall x rfl h.1) h.2
      · simp only [true_iff]
        intro y hy ht
        subst hy
        by_contra hni
        exact h ⟨ht, fun hb => hni hb⟩
  
theorem presetErrors_eq_nil_iff (v : Option JVal) :
    presetErrors v = [] ↔ presetAccepted v := by
  cases v with
  | none => simp [presetErrors, presetAccepted]
  | some x =>
      simp only [presetErrors, presetAccepted, Option.some.injEq]
      split_ifs with h
      · simp only [List.cons_ne_nil, false_iff]
        intro hall
        have := hall x rfl h.1
        simp [Option.isNone_iff_eq_none, Option.isSome_iff_exists] at h this
        obtain ⟨y, hy⟩ := this
        simp [hy] at h
      · simp only [true_iff]
        intro y hy ht
        subst hy
        by_contra hns
        refine h ⟨ht, ?_⟩
        simpa [Option.isNone_iff_eq_none, Option.not_isSome_iff_eq_none] using
          (Option.not_isSome_iff_eq_none.mp (fun hs => hns hs))

/-- Claim C3 counterexample: an effect-options object whose only key is
an unknown one is accepted by `validateEffects` — unknown keys are not
rejected. -/
theorem claim_C3_counterexample :
    (validateEffects { extra := ["customFlag"] }).isValid = true ∧
    ({ extra := ["customFlag"] } : EffectsObj).extra ≠ [] := by
  constructor <;> decide

/-- Claim C3 (amended): `validateEffects` returns `isValid = true` iff
every present truthy field among transition, motion, color and overlay
is a member of its catalog enumeration and any present truthy preset
names a registered preset; unknown keys are ignored, never rejected. -/
theorem claim_C3 :
    (∀ e : EffectsObj,
      (validateEffects e).isValid = true ↔
        (fieldAccepted e.transition VIDEO_TRANSITIONS ∧
         fieldAccepted e.motion VIDEO_MOTION_EFFECTS ∧
         fieldAccepted e.color VIDEO_COLOR_EFFECTS ∧
         fieldAccepted e.overlay VIDEO_OVERLAY_EFFECTS ∧
         presetAccepted e.preset)) ∧
    (∀ (e : EffectsObj) (ks : List String),
      (validateEffects { e with extra := ks }).isValid =
        (validateEffects e).isValid) := by
  constructor
  · intro e
    simp only [validateEffects, List.isEmpty_iff, List.append_eq_nil,
      fieldErrors_eq_nil_iff, presetErrors_eq_nil_iff]
    tauto
  · intro e ks
    rfl

theorem claim_C3_witness :
    (validateEffects { transition := some (.vstr "fade") }).isValid = true := by
  refine (claim_C3.1 _).mpr ⟨?_, ?_, ?_, ?_, ?_⟩
  · intro x hx ht
    cases hx
    decide
  · intro x hx
    exact nomatch hx
  · intro x hx
    exact nomatch hx
  · intro x hx
    exact nomatch hx
  · intro x hx
    exact nomatch hx


/-- Claim C2 counterexample: for the scenario-B input the resolved
object carries the preset's `description` field, so it is not exactly
the five-field object the claim states. -/
theorem claim_C2_counterexample :
    resolveEffects cinematicCaller = .ok cinematicResolved ∧
    resolveEffects cinematicCaller ≠ .ok claimC2Exact ∧
    cinematicResolved.description ≠ none := by
  refine ⟨rfl, ?_, by decide⟩
  rw [show resolveEffects cinematicCaller = .ok cinematicResolved from rfl]
  intro h
  exact absurd (congrArg EffectsObj.description (Except.ok.inj h)) (by decide)

/-- Claim C2 (amended): resolving a truthy registered preset keeps
every field the caller explicitly set, fills every unset effect field
from the preset with `transitionDuration` defaulted to 0.8, deletes the
`preset` key, and also carries the preset's `description`; for the
input with only `preset = "cinematic"` the resolved object is the
cinematic preset's five fields plus its description. -/
theorem claim_C2 :
    (∀ (e : EffectsObj) (name : String) (rec : PresetRec) (r : EffectsObj),
      e.preset = some (.vstr name) → name ≠ "" →
      presetLookup (.vstr name) = some rec →
      resolveEffects e = .ok r →
      ((e.transition.isSome → r.transition = e.transition) ∧
       (e.transition = none → r.transition = some (.vstr rec.transition)) ∧
       (e.motion.isSome → r.motion = e.motion) ∧
       (e.motion = none → r.motion = some (.vstr rec.motion)) ∧
       (e.color.isSome → r.color = e.color) ∧
       (e.color = none → r.color = some (.vstr rec.color)) ∧
       (e.overlay.isSome → r.overlay = e.overlay) ∧
       (e.overlay = none → r.overlay = some (presetOverlayVal rec.overlay)) ∧
       (e.transitionDuration.isSome →
         r.transitionDuration = e.transitionDuration) ∧
       (e.transitionDuration = none →
         r.transitionDuration = some (.vnum (4 / 5))) ∧
       (e.description = none → r.description = some (.vstr rec.description)) ∧
       r.preset = none)) ∧
    resolveEffects cinematicCaller = .ok cinematicResolved := by
  constructor
  · intro e name rec r hp hn hl hr
    rw [resolveEffects, hp] at hr
    rw [if_pos (by simp [jsTruthyOpt, jsTruthy, hn])] at hr
    rw [show (some (JVal.vstr name)).getD .vnull = .vstr name from rfl] at hr
    rw [applyPreset, hl] at hr
    have hr' := (Except.ok.inj hr).symm
    subst hr'
    refine ⟨?_, ?_, ?_, ?_, ?_, ?_, ?_, ?_, ?_, ?_, ?_, rfl⟩
    · intro h
      obtain ⟨x, hx⟩ := Option.isSome_iff_exists.mp h
      simp [spreadMerge, presetToEffects, hx, Option.orElse]
    · intro h
      simp [spreadMerge, presetToEffects, h, Option.orElse]
    · intro h
      obtain ⟨x, hx⟩ := Option.isSome_iff_exists.mp h
      simp [spreadMerge, presetToEffects, hx, Option.orElse]
    · intro h
      simp [spreadMerge, presetToEffects, h, Option.orElse]
    · intro h
      obtain ⟨x, hx⟩ := Option.isSome_iff_exists.mp h
      simp [spreadMerge, presetToEffects, hx, Option.orElse]
    · intro h
      simp [spreadMerge, presetToEffects, h, Option.orElse]
    · intro h
      obtain ⟨x, hx⟩ := Option.isSome_iff_exists.mp h
      simp [spreadMerge, presetToEffects, hx, Option.orElse]
    · intro h
      simp [spreadMerge, presetToEffects, h, Option.orElse]
    · intro h
      obtain ⟨x, hx⟩ := Option.isSome_iff_exists.mp h
      simp [spreadMerge, presetToEffects, hx, Option.orElse]
    · intro h
      simp [spreadMerge, presetToEffects, h, Option.orElse]
    · intro h
      simp [spreadMerge, presetToEffects, h, Option.orElse]
  · rfl

theorem claim_C2_witness :
    overrideResolved.color = overrideCaller.color ∧
    overrideResolved.transition = some (.vstr "fade") :=
  ⟨(claim_C2.1 overrideCaller "cinematic"
      ⟨"fade", "kenburns", "vintage", some "light_leaks",
       "Cinematic look with warm tones and subtle movement"⟩
      overrideResolved rfl (by decide) (by decide) rfl).2.2.2.2.1 rfl,
   (claim_C2.1 overrideCaller "cinematic"
      ⟨"fade", "kenburns", "vintage", some "light_leaks",
       "Cinematic look with warm tones and subtle movement"⟩
      overrideResolved rfl (by decide) (by decide) rfl).2.1 rfl⟩


theorem convertLoop_error_of_zero (env : ConcatEnv) :
    ∀ (paths : List String) (i : ℕ),
      (∃ p ∈ paths, env.fileSize p = some 0) →
      ∃ e, convertLoop env paths i = .error e := by
  intro paths
  induction paths with
  | nil =>
      rintro i ⟨p, hp, _⟩
      exact absurd hp (List.not_mem_nil p)
  | cons q rest ih =>
      rintro i ⟨p, hp, hz⟩
      cases hq : env.fileSize q with
      | none => exact ⟨.invalidOrEmpty q, by simp [convertLoop, hq]⟩
      | some k =>
          cases k with
          | zero => exact ⟨.invalidOrEmpty q, by simp [convertLoop, hq]⟩
          | succ m =>
              have hp' : p ∈ rest := by
                rcases List.mem_cons.mp hp with h | h
                · subst h
                  rw [hq] at hz
                  exact absurd hz (by simp)
                · exact h
              by_cases hc : env.convertOk i
              · obtain ⟨e, he⟩ := ih (i + 1) ⟨p, hp', hz⟩
                exact ⟨e, by simp [convertLoop, hq, hc, he]⟩
              · exact ⟨.conversionFailed i, by simp [convertLoop, hq, hc]⟩

theorem multiConcatBody_error_of_zero (paths : List String)
    (outputPath : String) (env : ConcatEnv)
    (h : ∃ p ∈ paths, env.fileSize p = some 0) :
    ∃ e, multiConcatBody paths outputPath env = .error e := by
  obtain ⟨e, he⟩ := convertLoop_error_of_zero env paths 0 h
  exact ⟨e, by simp [multiConcatBody, he, Bind.bind, Except.bind]⟩

/-- Claim C8 counterexample: a single-element list whose one file
exists but is zero-length succeeds — the zero-length check lives only
in the multi-input branch, so the claimed failure does not occur. -/
theorem claim_C8_counterexample :
    zeroLengthSoloEnv.fileSize "solo.mp3" = some 0 ∧
    (concatenateAudioFiles ["solo.mp3"] "out.mp3" zeroLengthSoloEnv).outcome =
      .ok { outputPath := "out.mp3", totalDuration := 60, sourceFiles := 1 } :=
  ⟨rfl, rfl⟩

/-- Claim C8 (amended): `concatenateAudioFiles` fails whenever the path
list is empty or any listed path does not exist, and fails on a
zero-length input only in the multi-input case (two or more paths); a
single-element list is not checked for zero length. -/
theorem claim_C8 :
    ∀ (paths : List String) (out : String) (env : ConcatEnv),
      (paths = [] →
        concatOutcomeOk (concatenateAudioFiles paths out env).outcome = false) ∧
      ((∃ p ∈ paths, env.fileSize p = none) →
        concatOutcomeOk (concatenateAudioFiles paths out env).outcome = false) ∧
      (2 ≤ paths.length → (∃ p ∈ paths, env.fileSize p = some 0) →
        concatOutcomeOk (concatenateAudioFiles paths out env).outcome = false) := by
  intro paths out env
  refine ⟨?_, ?_, ?_⟩
  · intro h
    subst h
    rfl
  · rintro ⟨p, hp, hnone⟩
    rw [concatenateAudioFiles]
    rw [if_neg (by simp [List.isEmpty_iff]; rintro rfl; exact absurd hp (List.not_mem_nil p))]
    cases hf : paths.find? (fun q => (env.fileSize q).isNone) with
    | some q => simp [concatOutcomeOk]
    | none =>
        have := List.find?_eq_none.mp hf p hp
        rw [hnone] at this
        simp at this
  · intro hlen
    rintro ⟨p, hp, hzero⟩
    rw [concatenateAudioFiles]
    rw [if_neg (by simp [List.isEmpty_iff]; rintro rfl; exact absurd hp (List.not_mem_nil p))]
    cases hf : paths.find? (fun q => (env.fileSize q).isNone) with
    | some q => simp [concatOutcomeOk]
    | none =>
        rw [if_neg (by omega)]
        obtain ⟨e, he⟩ := multiConcatBody_error_of_zero paths out env ⟨p, hp, hzero⟩
        simp [he, concatOutcomeOk]

theorem claim_C8_witness :
    concatOutcomeOk
      (concatenateAudioFiles [] "out.mp3" zeroLengthSoloEnv).outcome = false :=
  (claim_C8 [] "out.mp3" zeroLengthSoloEnv).1 rfl

/-- Claim C9: a multi-input run with existing inputs always creates the
temporary directory and always removes it, whatever the outcome of the
conversion and concat steps — the finally-step cleanup. -/
theorem claim_C9 :
    ∀ (paths : List String) (out : String) (env : ConcatEnv),
      2 ≤ paths.length → (∀ p ∈ paths, (env.fileSize p).isSome = true) →
      (concatenateAudioFiles paths out env).tmpCreated = true ∧
      (concatenateAudioFiles paths out env).tmpRemoved = true := by
  intro paths out env hlen hex
  have hne : ¬ paths.isEmpty = true := by
    simp [List.isEmpty_iff]
    rintro rfl
    simp at hlen
  have hf : paths.find? (fun q => (env.fileSize q).isNone) = none :=
    List.find?_eq_none.mpr (fun q hq => by
      obtain ⟨v, hv⟩ := Option.isSome_iff_exists.mp (hex q hq)
      simp [hv])
  rw [concatenateAudioFiles, if_neg hne, hf, if_neg (by omega)]
  exact ⟨rfl, rfl⟩

theorem claim_C9_witness :
    ((concatenateAudioFiles ["a.mp3", "b.mp3"] "out.mp3"
        failingConversionEnv).tmpCreated = true ∧
     (concatenateAudioFiles ["a.mp3", "b.mp3"] "out.mp3"
        failingConversionEnv).tmpRemoved = true) ∧
    (concatenateAudioFiles ["a.mp3", "b.mp3"] "out.mp3"
        failingConversionEnv).outcome = .error (.conversionFailed 0) :=
  ⟨claim_C9 ["a.mp3", "b.mp3"] "out.mp3" failingConversionEnv
      (by decide) (by decide), rfl⟩
